import Mathlib

/-!
Verification of the order-lifecycle and escrow-coordination core of the bot
(`src/bot/modules/community/messages.js`). The command handlers are embedded
as pure Lean functions over an explicit `Order`/`User` state; external calls
(escrow client, chat transport, persistence) are recorded as an effect trace
`List Eff` in invocation order. Where a handler's behaviour depends on whether
an external call succeeds, that call site is parameterised by a success flag;
a thrown error aborts the handler at that point (the surrounding `try/catch`
logs and returns), so no later effect is invoked.
-/

namespace Bot

/-- Order status strings used by the code, as a closed enumeration. -/
inductive Status where
  | PENDING
  | WAITING_PAYMENT
  | ACTIVE
  | FIAT_SENT
  | COMPLETED
  | COMPLETED_BY_ADMIN
  | DISPUTE
  | CANCELED
  | CANCELED_BY_ADMIN
deriving DecidableEq, Repr

/-- Terminal statuses of an order. -/
def terminalStatus : Status → Bool
  | .COMPLETED => true
  | .COMPLETED_BY_ADMIN => true
  | .CANCELED => true
  | .CANCELED_BY_ADMIN => true
  | _ => false

/-- A `User` record: id, dispute counter, banned flag. -/
structure User where
  id : Nat
  disputes : Nat
  banned : Bool
deriving DecidableEq, Repr

/-- An `Order` record, with the fields the handlers read and write.
`hash`/`secret` are `none` when the corresponding field is unset
(`undefined` in the code, so that `!!order.hash` is false). -/
structure Order where
  status : Status
  amount : Nat
  fee : Nat
  hash : Option String
  secret : Option String
  buyer_id : Nat
  seller_id : Nat
  creator_id : Nat
  buyer_invoice : Option String
  taken_at : Option Nat
  buyer_cooperativecancel : Bool
  seller_cooperativecancel : Bool
  buyer_dispute : Bool
  seller_dispute : Bool
  canceled_by : Option Nat
  tg_channel_message1 : Nat
  tg_channel_message2 : Nat
  tg_chat_id : Int
  tg_group_message2 : Nat
deriving DecidableEq, Repr

/-- Result of `createHoldInvoice` on success. -/
structure HoldInvoice where
  request : String
  hash : String
  secret : String
deriving DecidableEq, Repr

/-- External effects a handler can invoke, in invocation order. -/
inductive Eff where
  | cancelHoldInvoice (hash : String)
  | settleHoldInvoice (secret : String)
  | createHoldInvoice (amount : Nat)
  | subscribeInvoice (hash : String)
  | sendMessage (recipient : Nat) (tag : String)
  | deleteChannelMessage (msgId : Nat)
  | editChannelMessage (msgId : Nat)
  | editGroupMessage (msgId : Nat)
  | saveOrder (o : Order)
  | saveUser (u : User)
  | beginDisputeMessage (buyerId sellerId : Nat)
  | logError (msg : String)
deriving DecidableEq, Repr

/-- Is this effect an escrow settle call? -/
def isSettleCall : Eff → Bool
  | .settleHoldInvoice _ => true
  | _ => false

/-- Is this effect an escrow cancel call? -/
def isCancelCall : Eff → Bool
  | .cancelHoldInvoice _ => true
  | _ => false

/-- Is this effect an escrow settle or cancel call? -/
def isEscrowCall (e : Eff) : Bool := isSettleCall e || isCancelCall e

/-- Is this effect a persistence write of the order? -/
def isSaveOrder : Eff → Bool
  | .saveOrder _ => true
  | _ => false

/-- `bot.command('cancel')`: the user cancel handler, after parameter and
user validation, applied to the fetched order. Mirrors the source: any status
other than `PENDING`/`WAITING_PAYMENT` gets a guidance reply and no change;
otherwise cancel the hold invoice if `hash` is set, set `CANCELED` and
`canceled_by`, save, reply, delete both channel messages. Returns the trace
and the persisted order. -/
def cancelHandler (user : User) (o : Order) : List Eff × Order :=
  if o.status ≠ .PENDING ∧ o.status ≠ .WAITING_PAYMENT then
    ([.sendMessage user.id "cancel_only_untaken_orders"], o)
  else
    let escrow := match o.hash with
      | some h => [Eff.cancelHoldInvoice h]
      | none => []
    let o1 := { o with status := .CANCELED, canceled_by := some user.id }
    (escrow ++ [.saveOrder o1,
      .sendMessage user.id "you_canceled_order",
      .deleteChannelMessage o.tg_channel_message1,
      .deleteChannelMessage o.tg_channel_message2], o1)

/-- `bot.command('cancelorder')`: the admin force-cancel handler, after admin
validation, applied to the fetched order (`Order.findOne`; the source checks
no status). Cancel the hold invoice if `hash` is set, set `CANCELED_BY_ADMIN`
and `canceled_by`, save, message admin/seller/buyer, delete both channel
messages. -/
def cancelorderHandler (admin : User) (o : Order) : List Eff × Order :=
  let escrow := match o.hash with
    | some h => [Eff.cancelHoldInvoice h]
    | none => []
  let o1 := { o with status := .CANCELED_BY_ADMIN, canceled_by := some admin.id }
  (escrow ++ [.saveOrder o1,
    .sendMessage admin.id "you_canceled_order",
    .sendMessage o.seller_id "admin_canceled_order",
    .sendMessage o.buyer_id "admin_canceled_order",
    .deleteChannelMessage o.tg_channel_message1,
    .deleteChannelMessage o.tg_channel_message2], o1)

/-- `bot.command('settleorder')`: the admin force-settle handler, after admin
validation, applied to the fetched order (the source checks no status).
Settle the hold invoice if `secret` is set, set `COMPLETED_BY_ADMIN`, save,
message admin/seller/buyer, edit the channel message, and edit the group
message when `tg_chat_id < 0`. -/
def settleorderHandler (admin : User) (o : Order) : List Eff × Order :=
  let escrow := match o.secret with
    | some s => [Eff.settleHoldInvoice s]
    | none => []
  let o1 := { o with status := .COMPLETED_BY_ADMIN }
  let groupEdit := if o.tg_chat_id < 0 then [Eff.editGroupMessage o.tg_group_message2] else []
  (escrow ++ [.saveOrder o1,
    .sendMessage admin.id "you_completed_order",
    .sendMessage o.seller_id "admin_completed_order",
    .sendMessage o.buyer_id "admin_completed_order",
    .editChannelMessage o.tg_channel_message2] ++ groupEdit, o1)

/-- `bot.command('dispute')`: the dispute handler, after validation, applied
to the fetched order and the fetched `buyer`/`seller` user records.
`initiator` is `'seller'` unless `user._id == order.buyer_id`. Sets the
initiator's dispute flag and status `DISPUTE`, saves the order, increments
both users' dispute counters, sets `banned` on a user whose new counter is
`>= MAX_DISPUTES`, saves buyer then seller, then sends the dispute-begun
notification. Returns the trace, the persisted order, and both persisted
users. -/
def disputeHandler (maxDisputes : Nat) (user : User) (o : Order)
    (buyer seller : User) : List Eff × Order × User × User :=
  let initiatorIsBuyer := user.id == o.buyer_id
  let o1 :=
    if initiatorIsBuyer then { o with buyer_dispute := true, status := .DISPUTE }
    else { o with seller_dispute := true, status := .DISPUTE }
  let buyerDisputes := buyer.disputes + 1
  let sellerDisputes := seller.disputes + 1
  let buyer1 := { buyer with disputes := buyerDisputes }
  let seller1 := { seller with disputes := sellerDisputes }
  let buyer2 := if buyerDisputes ≥ maxDisputes then { buyer1 with banned := true } else buyer1
  let seller2 := if sellerDisputes ≥ maxDisputes then { seller1 with banned := true } else seller1
  ([.saveOrder o1, .saveUser buyer2, .saveUser seller2,
    .beginDisputeMessage o.buyer_id o.seller_id],
   o1, buyer2, seller2)

/-- Modelled from the spec: `validateReleaseOrder` lives outside `src/`; the
spec states "`release(order)`: requires `secret`" and the transition row
"FIAT_SENT/ACTIVE | seller (or admin) releases | secret present". It yields
the order only when the caller is the seller, the status is `ACTIVE` or
`FIAT_SENT`, and `secret` is present. -/
def validateReleaseOrder (user : User) (o : Order) : Option Order :=
  if (o.status = .ACTIVE ∨ o.status = .FIAT_SENT) ∧ user.id = o.seller_id ∧ o.secret.isSome
  then some o else none

/-- Modelled from the spec: the invoice-subscription side that reacts to
settlement lives outside `src/`; the spec's transition row gives
`COMPLETED` as the resulting status of a (non-admin) release. -/
def onSettleConfirmed (o : Order) : Order := { o with status := .COMPLETED }

/-- `bot.command('release')`: after validation the handler calls
`settleHoldInvoice({ secret: order.secret })` and nothing else; the status
update to `COMPLETED` is the spec-modelled settlement reaction
`onSettleConfirmed`. Returns the trace and the resulting persisted order. -/
def releaseFlow (user : User) (o : Order) : List Eff × Order :=
  match validateReleaseOrder user o with
  | none => ([], o)
  | some ord =>
    match ord.secret with
    | some s => ([.settleHoldInvoice s], onSettleConfirmed ord)
    | none => ([], ord)

/-- Success flags for each external call site of the cooperative-cancel
handler: `false` means the awaited call throws, aborting the handler into
its `catch`. -/
structure CoopEnv where
  cancelInvoiceOk : Bool
  msg1Ok : Bool
  msg2Ok : Bool
  msg3Ok : Bool
  delete1Ok : Bool
  delete2Ok : Bool
  saveOk : Bool
deriving DecidableEq, Repr

/-- The environment where every external call succeeds. -/
def coopAllOk : CoopEnv := ⟨true, true, true, true, true, true, true⟩

/-- Run a sequence of external calls, each tagged with its success flag, in
order; stop at the first failing call. Returns the invoked calls and whether
all of them succeeded. -/
def runCalls : List (Eff × Bool) → List Eff × Bool
  | [] => ([], true)
  | (e, ok) :: rest =>
    if ok then
      let r := runCalls rest
      (e :: r.1, r.2)
    else ([e], false)

/-- `bot.command('cooperativecancel')`: after validation, applied to the
fetched order. Mirrors the source: non-`ACTIVE` status gets a guidance reply;
`initiator` is `'buyer'` iff `user._id == order.buyer_id`; if the initiator's
flag is already set, a wait-for-counterparty reply; otherwise the initiator's
flag is set in memory, and (second confirmation) if the counterparty's flag
was already set: cancel the hold invoice if `hash` is present, set status
`CANCELED`, message both users, delete both channel messages, then save —
or (first request) message both users (three messages), then save. A throw
at any call site skips everything after it, including the save. Returns the
trace and the persisted order (the original order when the save was not
reached). -/
def coopCancel (env : CoopEnv) (user : User) (o : Order) : List Eff × Order :=
  if o.status ≠ .ACTIVE then
    ([.sendMessage user.id "coop_cancel_only_active"], o)
  else
    let initiatorIsBuyer := user.id == o.buyer_id
    let counterPartyId := if initiatorIsBuyer then o.seller_id else o.buyer_id
    let initiatorFlag :=
      if initiatorIsBuyer then o.buyer_cooperativecancel else o.seller_cooperativecancel
    let counterFlag :=
      if initiatorIsBuyer then o.seller_cooperativecancel else o.buyer_cooperativecancel
    if initiatorFlag then
      ([.sendMessage user.id "already_requested_wait_counterparty"], o)
    else
      let o1 :=
        if initiatorIsBuyer then { o with buyer_cooperativecancel := true }
        else { o with seller_cooperativecancel := true }
      if counterFlag then
        let o2 := { o1 with status := .CANCELED }
        let calls :=
          (match o.hash with
           | some h => [(Eff.cancelHoldInvoice h, env.cancelInvoiceOk)]
           | none => []) ++
          [(Eff.sendMessage user.id "you_canceled_order", env.msg1Ok),
           (Eff.sendMessage counterPartyId "counterparty_agreed_order_canceled", env.msg2Ok),
           (Eff.deleteChannelMessage o.tg_channel_message1, env.delete1Ok),
           (Eff.deleteChannelMessage o.tg_channel_message2, env.delete2Ok)]
        let r := runCalls calls
        if r.2 then
          if env.saveOk then (r.1 ++ [.saveOrder o2], o2) else (r.1, o)
        else (r.1, o)
      else
        let calls :=
          [(Eff.sendMessage user.id "you_requested_coop_cancel", env.msg1Ok),
           (Eff.sendMessage counterPartyId "counterparty_wants_coop_cancel", env.msg2Ok),
           (Eff.sendMessage counterPartyId "coop_cancel_command", env.msg3Ok)]
        let r := runCalls calls
        if r.2 then
          if env.saveOk then (r.1 ++ [.saveOrder o1], o1) else (r.1, o)
        else (r.1, o)

/-- `bot.command('takesell')`: after validation, applied to the fetched order
and the taking user. The in-memory order is mutated (`WAITING_PAYMENT`,
`buyer_id`, `buyer_invoice`) before `createHoldInvoice` runs; if the create
call throws, the inner `catch` logs and sends an invalid-data message, so the
order is never saved and the persisted order is unchanged. On success the
`hash`/`secret`/`taken_at` fields are set, the order is saved, the invoice
subscription begins, and the two messages are sent. -/
def takesellHandler (createResult : Except String HoldInvoice) (now : Nat)
    (lnInvoice : String) (user : User) (o : Order) : List Eff × Order :=
  let o1 := { o with status := .WAITING_PAYMENT, buyer_id := user.id,
                     buyer_invoice := some lnInvoice }
  let amount := o.amount + o.fee
  match createResult with
  | .error e =>
    ([.createHoldInvoice amount, .logError e, .sendMessage user.id "invalid_data"], o)
  | .ok inv =>
    let o2 := { o1 with hash := some inv.hash, secret := some inv.secret,
                        taken_at := some now }
    ([.createHoldInvoice amount, .saveOrder o2, .subscribeInvoice inv.hash,
      .sendMessage o.creator_id "invoice_payment_request",
      .sendMessage user.id "take_sell_waiting_seller_pay"], o2)

/-- The identifiers in scope inside the `bot.command('ban')` handler body:
the module-level bindings of the file, the enclosing function's bindings,
the handler's own bindings, and the Node globals the file uses. -/
def banHandlerScope : List String :=
  ["require", "module", "exports", "process", "console",
   "Telegraf", "schedule", "Order", "User", "ordersActions", "takebuy",
   "settleHoldInvoice", "createHoldInvoice", "cancelHoldInvoice", "subscribeInvoice",
   "validateSellOrder", "validateUser", "validateBuyOrder", "validateTakeSell",
   "validateReleaseOrder", "validateTakeSellOrder", "validateDisputeOrder",
   "validateAdmin", "validateFiatSentOrder", "validateSeller", "validateParams",
   "validateObjectId", "validateInvoice", "messages",
   "attemptPendingPayments", "cancelOrders",
   "botToken", "options", "bot", "pendingPaymentJob", "cancelOrderJob",
   "start", "ctx", "adminUser", "username", "user"]

/-- Evaluate an identifier: a name not bound in the scope throws a
`ReferenceError`. -/
def lookupIdent (x : String) : Except String Unit :=
  if x ∈ banHandlerScope then .ok () else .error ("ReferenceError: " ++ x ++ " is not defined")

/-- Result of the ban handler: the effect trace, whether it threw into its
`catch`, and the user record as saved (or `none` when no save happened). -/
structure BanResult where
  trace : List Eff
  threw : Bool
  savedUser : Option User
deriving DecidableEq, Repr

/-- `bot.command('ban')`: after admin validation and parameter extraction
(`const [ username ] = ...`), the handler looks the user up; if not found it
replies and returns. Otherwise it evaluates `params[0]` — but `params` is
bound nowhere in scope, so the evaluation throws a `ReferenceError`, which
the surrounding `catch` logs; the `user.banned = true; await user.save()`
lines after it are never reached. `objectIdOk` stands for the result
`validateObjectId` would return on that (unreachable) path. -/
def banHandler (adminUser : User) (foundUser : Option User) (objectIdOk : Bool) : BanResult :=
  match foundUser with
  | none =>
    { trace := [.sendMessage adminUser.id "user_not_found"], threw := false, savedUser := none }
  | some user =>
    match lookupIdent "params" with
    | .error e => { trace := [.logError e], threw := true, savedUser := none }
    | .ok _ =>
      if objectIdOk then
        let banned := { user with banned := true }
        { trace := [.saveUser banned, .sendMessage adminUser.id "user_banned"],
          threw := false, savedUser := some banned }
      else { trace := [], threw := false, savedUser := none }

/-- A `PendingPayment` record, as queried by `earningsMessage`. -/
structure PendingPayment where
  community_id : Nat
  attempts : Nat
  paid : Bool
deriving DecidableEq, Repr

/-- A `Community` record, as read by `earningsMessage`. -/
structure Community where
  id : Nat
  earnings : Nat
  orders_to_redeem : Nat
deriving DecidableEq, Repr

/-- The reply `earningsMessage` produces: either the invoice-already-being-
paid notice (no button), or the current-earnings text, with the
withdraw-earnings button iff `withButton`. -/
inductive EarningsReply where
  | alreadyBeingPaid
  | currentEarnings (withButton : Bool)
deriving DecidableEq, Repr

/-- `earningsMessage`: if some `PendingPayment` for the community has
`attempts < PAYMENT_ATTEMPTS` and `paid = false`, reply that an invoice is
already being paid; otherwise reply with the current earnings, attaching the
withdraw button exactly when `community.earnings > 0`. -/
def earningsMessage (pendings : List PendingPayment) (communityId : Nat)
    (paymentAttempts : Nat) (community : Community) : EarningsReply :=
  if pendings.any fun p =>
      p.community_id == communityId && p.attempts < paymentAttempts && !p.paid
  then .alreadyBeingPaid
  else .currentEarnings (community.earnings > 0)

/-- The operations of the order's history that can touch escrow, tagged with
the acting user; each acts on the single order under consideration with all
external calls succeeding. -/
inductive Op where
  | userCancel (u : User)
  | adminCancelOrder (a : User)
  | adminSettleOrder (a : User)
  | release (u : User)
  | coopCancelReq (u : User)
deriving DecidableEq, Repr

/-- One operation applied to the order: the trace it invokes and the
resulting persisted order. -/
def stepOp (o : Order) : Op → List Eff × Order
  | .userCancel u => cancelHandler u o
  | .adminCancelOrder a => cancelorderHandler a o
  | .adminSettleOrder a => settleorderHandler a o
  | .release u => releaseFlow u o
  | .coopCancelReq u => coopCancel coopAllOk u o

/-- Run a sequence of operations on an order, concatenating their traces. -/
def runOps (o : Order) : List Op → List Eff × Order
  | [] => ([], o)
  | op :: rest =>
    let r := stepOp o op
    let r2 := runOps r.2 rest
    (r.1 ++ r2.1, r2.2)

/-! Concrete records used by witnesses and counterexamples. -/

/-- A buyer user. -/
def uBuyer : User := { id := 1, disputes := 0, banned := false }

/-- A seller user (also the creator of the sample orders). -/
def uSeller : User := { id := 2, disputes := 0, banned := false }

/-- An admin user, party to no sample order. -/
def uAdmin : User := { id := 99, disputes := 0, banned := false }

/-- A taken, escrow-backed `ACTIVE` order between `uBuyer` and `uSeller`. -/
def oActive : Order :=
  { status := .ACTIVE, amount := 100000, fee := 1000,
    hash := some "h1", secret := some "s1",
    buyer_id := 1, seller_id := 2, creator_id := 2,
    buyer_invoice := some "lnbc1", taken_at := some 7,
    buyer_cooperativecancel := false, seller_cooperativecancel := false,
    buyer_dispute := false, seller_dispute := false, canceled_by := none,
    tg_channel_message1 := 11, tg_channel_message2 := 12,
    tg_chat_id := 5, tg_group_message2 := 13 }

/-- A fresh `PENDING` order with no escrow fields set. -/
def oPending : Order :=
  { oActive with status := .PENDING, hash := none, secret := none,
                 buyer_invoice := none, taken_at := none }

/-- A `WAITING_PAYMENT` order whose hold invoice exists. -/
def oWaiting : Order := { oActive with status := .WAITING_PAYMENT }

/-- The `ACTIVE` order after fiat was declared sent. -/
def oFiatSent : Order := { oActive with status := .FIAT_SENT }

/-- C5: the owner cancel succeeds only on `PENDING`/`WAITING_PAYMENT` orders —
on any other status it replies with guidance and leaves the order unchanged;
on success it sets `CANCELED`, invokes escrow cancel iff `hash` is present
(never when it is absent), and deletes both public postings. -/
theorem C5_owner_cancel (u : User) (o : Order) :
    (o.status ≠ .PENDING ∧ o.status ≠ .WAITING_PAYMENT →
      cancelHandler u o = ([.sendMessage u.id "cancel_only_untaken_orders"], o)) ∧
    ((o.status = .PENDING ∨ o.status = .WAITING_PAYMENT) →
      (cancelHandler u o).2.status = .CANCELED ∧
      (cancelHandler u o).1.any isCancelCall = o.hash.isSome ∧
      (o.hash = none → (cancelHandler u o).1.any isEscrowCall = false) ∧
      Eff.deleteChannelMessage o.tg_channel_message1 ∈ (cancelHandler u o).1 ∧
      Eff.deleteChannelMessage o.tg_channel_message2 ∈ (cancelHandler u o).1) := by
  constructor
  · intro hst
    simp [cancelHandler, hst.1, hst.2]
  · intro hst
    have hok : ¬ (o.status ≠ .PENDING ∧ o.status ≠ .WAITING_PAYMENT) := by
      rcases hst with h | h <;> simp [h]
    cases hh : o.hash <;>
      simp [cancelHandler, hok, hh, isCancelCall, isEscrowCall, isSettleCall]

/-- Witness for C5: canceling the pending no-hash order sets `CANCELED` with
no escrow call, and canceling the active order only draws the guidance
reply. -/
theorem C5_owner_cancel_witness :
    (cancelHandler uSeller oPending).2.status = .CANCELED ∧
    (cancelHandler uSeller oPending).1.any isEscrowCall = false ∧
    cancelHandler uSeller oActive =
      ([.sendMessage uSeller.id "cancel_only_untaken_orders"], oActive) := by
  refine ⟨?_, ?_, ?_⟩
  · exact ((C5_owner_cancel uSeller oPending).2 (by decide)).1
  · exact ((C5_owner_cancel uSeller oPending).2 (by decide)).2.2.1 (by decide)
  · exact (C5_owner_cancel uSeller oActive).1 (by decide)

/-- C2: when the seller releases an order in `FIAT_SENT` whose secret is
present, exactly one escrow settle call is invoked and the order ends up
`COMPLETED`. -/
theorem C2_release_fiat_sent (u : User) (o : Order) (s : String)
    (hst : o.status = .FIAT_SENT) (hsec : o.secret = some s)
    (hsell : u.id = o.seller_id) :
    (releaseFlow u o).1 = [.settleHoldInvoice s] ∧
    (releaseFlow u o).2.status = .COMPLETED := by
  simp [releaseFlow, validateReleaseOrder, onSettleConfirmed, hst, hsec, hsell]

/-- Witness for C2 at the concrete `FIAT_SENT` order. -/
theorem C2_release_fiat_sent_witness :
    (releaseFlow uSeller oFiatSent).1 = [.settleHoldInvoice "s1"] ∧
    (releaseFlow uSeller oFiatSent).2.status = .COMPLETED :=
  C2_release_fiat_sent uSeller oFiatSent "s1" (by decide) (by decide) (by decide)

/-- C6: taking a sell order does not advance the persisted order when the
hold-invoice creation fails — the stored record keeps its previous status and
buyer and gains no `hash`, `secret` or `taken_at`, and nothing is saved or
subscribed; when the creation succeeds the order is saved in
`WAITING_PAYMENT` with `hash` and `secret` set and the subscription for that
hash begun. -/
theorem C6_takesell_escrow_failure (e : String) (inv : HoldInvoice) (now : Nat)
    (ln : String) (u : User) (o : Order) :
    takesellHandler (.error e) now ln u o =
      ([.createHoldInvoice (o.amount + o.fee), .logError e,
        .sendMessage u.id "invalid_data"], o) ∧
    takesellHandler (.ok inv) now ln u o =
      ([.createHoldInvoice (o.amount + o.fee),
        .saveOrder { o with status := .WAITING_PAYMENT, buyer_id := u.id,
                            buyer_invoice := some ln, hash := some inv.hash,
                            secret := some inv.secret, taken_at := some now },
        .subscribeInvoice inv.hash,
        .sendMessage o.creator_id "invoice_payment_request",
        .sendMessage u.id "take_sell_waiting_seller_pay"],
       { o with status := .WAITING_PAYMENT, buyer_id := u.id,
                buyer_invoice := some ln, hash := some inv.hash,
                secret := some inv.secret, taken_at := some now }) := by
  constructor <;> rfl

/-- C8: the earnings message deduplicates payouts — an unexhausted unpaid
`PendingPayment` for the community yields the invoice-already-being-paid
reply with no button; otherwise the withdraw button is offered iff the
community's earnings are positive. -/
theorem C8_earnings_dedup (ps : List PendingPayment) (cid maxA : Nat)
    (c : Community) :
    ((∃ p ∈ ps, p.community_id = cid ∧ p.attempts < maxA ∧ p.paid = false) →
      earningsMessage ps cid maxA c = .alreadyBeingPaid) ∧
    ((¬ ∃ p ∈ ps, p.community_id = cid ∧ p.attempts < maxA ∧ p.paid = false) →
      earningsMessage ps cid maxA c = .currentEarnings (decide (c.earnings > 0))) := by
  constructor
  · intro hex
    have hany : (ps.any fun p =>
        p.community_id == cid && p.attempts < maxA && !p.paid) = true := by
      rw [List.any_eq_true]
      obtain ⟨p, hp, h1, h2, h3⟩ := hex
      exact ⟨p, hp, by simp [h1, h2, h3]⟩
    simp [earningsMessage, hany]
  · intro hnex
    have hany : (ps.any fun p =>
        p.community_id == cid && p.attempts < maxA && !p.paid) = false := by
      rw [List.any_eq_false]
      intro p hp
      intro hcontra
      apply hnex
      have h' : (p.community_id = cid ∧ p.attempts < maxA) ∧ p.paid = false := by
        simpa using hcontra
      exact ⟨p, hp, h'.1.1, h'.1.2, h'.2⟩
    simp [earningsMessage, hany]

/-- Witness for C8: a live pending payment suppresses the button; with no
pending payment, positive earnings offer it. -/
theorem C8_earnings_dedup_witness :
    earningsMessage [{ community_id := 7, attempts := 1, paid := false }] 7 3
      { id := 7, earnings := 50, orders_to_redeem := 2 } = .alreadyBeingPaid ∧
    earningsMessage [] 7 3 { id := 7, earnings := 50, orders_to_redeem := 2 } =
      .currentEarnings true := by
  constructor
  · exact (C8_earnings_dedup [{ community_id := 7, attempts := 1, paid := false }] 7 3
      { id := 7, earnings := 50, orders_to_redeem := 2 }).1
      ⟨{ community_id := 7, attempts := 1, paid := false }, by simp, rfl, by decide, rfl⟩
  · exact (C8_earnings_dedup [] 7 3 { id := 7, earnings := 50, orders_to_redeem := 2 }).2
      (by simp)

/-- The identifier `params` is not bound in the ban handler's scope. -/
theorem params_not_in_scope : "params" ∉ banHandlerScope := by decide

/-- C9: whenever the ban target is found, the handler throws a
`ReferenceError` on the unbound identifier `params` before the banned flag is
assigned; the error is caught and logged, no user record is saved and no ban
is recorded. -/
theorem C9_ban_reference_error (a u : User) (oid : Bool) :
    banHandler a (some u) oid =
      { trace := [.logError "ReferenceError: params is not defined"],
        threw := true, savedUser := none } := by
  have hlook : lookupIdent "params" =
      .error "ReferenceError: params is not defined" := by
    unfold lookupIdent
    rw [if_neg params_not_in_scope]
    rfl
  simp [banHandler, hlook]

/-- C4: opening a dispute sets status `DISPUTE` and only the initiator's
dispute flag, increments both parties' dispute counters by exactly 1
whichever party initiated, bans a previously unbanned user iff their new
counter reaches the configured maximum, and persists the order and both user
records before the notification is sent (the trace ends with the
notification). -/
theorem C4_dispute_bookkeeping (m : Nat) (user : User) (o : Order)
    (buyer seller : User) :
    (disputeHandler m user o buyer seller).2.1.status = .DISPUTE ∧
    (user.id = o.buyer_id →
      (disputeHandler m user o buyer seller).2.1.buyer_dispute = true ∧
      (disputeHandler m user o buyer seller).2.1.seller_dispute = o.seller_dispute) ∧
    (user.id ≠ o.buyer_id →
      (disputeHandler m user o buyer seller).2.1.seller_dispute = true ∧
      (disputeHandler m user o buyer seller).2.1.buyer_dispute = o.buyer_dispute) ∧
    (disputeHandler m user o buyer seller).2.2.1.disputes = buyer.disputes + 1 ∧
    (disputeHandler m user o buyer seller).2.2.2.disputes = seller.disputes + 1 ∧
    (buyer.banned = false →
      ((disputeHandler m user o buyer seller).2.2.1.banned = true ↔ m ≤ buyer.disputes + 1)) ∧
    (seller.banned = false →
      ((disputeHandler m user o buyer seller).2.2.2.banned = true ↔ m ≤ seller.disputes + 1)) ∧
    (disputeHandler m user o buyer seller).1 =
      [.saveOrder (disputeHandler m user o buyer seller).2.1,
       .saveUser (disputeHandler m user o buyer seller).2.2.1,
       .saveUser (disputeHandler m user o buyer seller).2.2.2,
       .beginDisputeMessage o.buyer_id o.seller_id] := by
  refine ⟨?_, ?_, ?_, ?_, ?_, ?_, ?_, ?_⟩
  · by_cases hib : user.id = o.buyer_id <;> simp [disputeHandler, hib]
  · intro hib
    simp [disputeHandler, hib]
  · intro hib
    simp [disputeHandler, hib]
  · by_cases hbm : m ≤ buyer.disputes + 1 <;> simp [disputeHandler, hbm]
  · by_cases hsm : m ≤ seller.disputes + 1 <;> simp [disputeHandler, hsm]
  · intro hb
    by_cases hbm : m ≤ buyer.disputes + 1 <;> simp [disputeHandler, hbm, hb]
  · intro hs
    by_cases hsm : m ≤ seller.disputes + 1 <;> simp [disputeHandler, hsm, hs]
  · rfl

/-- Witness for C4: the buyer disputes the active order with a ban threshold
of 1, so both fresh users reach the threshold and are banned. -/
theorem C4_dispute_bookkeeping_witness :
    (disputeHandler 1 uBuyer oActive uBuyer uSeller).2.1.status = .DISPUTE ∧
    (disputeHandler 1 uBuyer oActive uBuyer uSeller).2.1.buyer_dispute = true ∧
    (disputeHandler 1 uBuyer oActive uBuyer uSeller).2.1.seller_dispute =
      oActive.seller_dispute ∧
    (disputeHandler 1 uBuyer oActive uBuyer uSeller).2.2.1.disputes =
      uBuyer.disputes + 1 ∧
    ((disputeHandler 1 uBuyer oActive uBuyer uSeller).2.2.1.banned = true ↔
      1 ≤ uBuyer.disputes + 1) := by
  have h := C4_dispute_bookkeeping 1 uBuyer oActive uBuyer uSeller
  have hib := h.2.1 (by decide)
  exact ⟨h.1, hib.1, hib.2, h.2.2.2.1, h.2.2.2.2.2.1 (by decide)⟩

/-- C3: on an `ACTIVE` order with neither cooperative-cancel flag set and a
hold invoice present, the first request leaves the order `ACTIVE` with only
the requester's flag set and no escrow call; the second request by the
counterparty cancels the order with exactly one escrow refund over the two
calls — whichever party requests first. -/
theorem C3_coop_cancel_two_phase (o : Order) (u v : User) (h : String)
    (hact : o.status = .ACTIVE)
    (hb : o.buyer_cooperativecancel = false)
    (hs : o.seller_cooperativecancel = false)
    (hh : o.hash = some h)
    (hu : u.id = o.buyer_id) (hv : v.id = o.seller_id)
    (hne : o.buyer_id ≠ o.seller_id) :
    ((coopCancel coopAllOk u o).2.status = .ACTIVE ∧
     (coopCancel coopAllOk u o).2.buyer_cooperativecancel = true ∧
     (coopCancel coopAllOk u o).2.seller_cooperativecancel = false ∧
     (coopCancel coopAllOk u o).1.any isEscrowCall = false) ∧
    ((coopCancel coopAllOk v (coopCancel coopAllOk u o).2).2.status = .CANCELED ∧
     ((coopCancel coopAllOk u o).1 ++
       (coopCancel coopAllOk v (coopCancel coopAllOk u o).2).1).count
        (.cancelHoldInvoice h) = 1) ∧
    ((coopCancel coopAllOk v o).2.status = .ACTIVE ∧
     (coopCancel coopAllOk v o).2.seller_cooperativecancel = true ∧
     (coopCancel coopAllOk v o).2.buyer_cooperativecancel = false ∧
     (coopCancel coopAllOk v o).1.any isEscrowCall = false) ∧
    ((coopCancel coopAllOk u (coopCancel coopAllOk v o).2).2.status = .CANCELED ∧
     ((coopCancel coopAllOk v o).1 ++
       (coopCancel coopAllOk u (coopCancel coopAllOk v o).2).1).count
        (.cancelHoldInvoice h) = 1) := by
  have hvb : (v.id == o.buyer_id) = false := by
    rw [hv]
    exact beq_eq_false_iff_ne.mpr (Ne.symm hne)
  refine ⟨⟨?_, ?_, ?_, ?_⟩, ⟨?_, ?_⟩, ⟨?_, ?_, ?_, ?_⟩, ⟨?_, ?_⟩⟩ <;>
    simp [coopCancel, coopAllOk, runCalls, hact, hb, hs, hh, hu, hvb,
          isEscrowCall, isSettleCall, isCancelCall]

/-- Witness for C3 at the concrete `ACTIVE` order with both parties. -/
theorem C3_coop_cancel_two_phase_witness :
    (coopCancel coopAllOk uBuyer oActive).2.status = .ACTIVE ∧
    (coopCancel coopAllOk uSeller
      (coopCancel coopAllOk uBuyer oActive).2).2.status = .CANCELED ∧
    ((coopCancel coopAllOk uBuyer oActive).1 ++
      (coopCancel coopAllOk uSeller (coopCancel coopAllOk uBuyer oActive).2).1).count
        (.cancelHoldInvoice "h1") = 1 := by
  have h := C3_coop_cancel_two_phase oActive uBuyer uSeller "h1"
    (by decide) (by decide) (by decide) (by decide) (by decide) (by decide) (by decide)
  exact ⟨h.1.1, h.2.1.1, h.2.1.2⟩

/-- C10: in the second-confirmation branch of cooperative cancellation the
escrow cancel, both notifications and both channel-message deletions run
before the save; if any of them throws, the save is skipped and the
persisted order is unchanged — still `ACTIVE` without the second flag — even
though, when the escrow cancel itself succeeded, the hold invoice was
already canceled. -/
theorem C10_coop_cancel_save_skipped (env : CoopEnv) (o : Order) (u : User)
    (h : String)
    (hact : o.status = .ACTIVE) (hu : u.id = o.buyer_id)
    (hb : o.buyer_cooperativecancel = false)
    (hs : o.seller_cooperativecancel = true)
    (hh : o.hash = some h)
    (hfail : env.cancelInvoiceOk = false ∨ env.msg1Ok = false ∨
             env.msg2Ok = false ∨ env.delete1Ok = false ∨ env.delete2Ok = false) :
    (coopCancel env u o).2 = o ∧
    (coopCancel env u o).1.any isSaveOrder = false ∧
    (env.cancelInvoiceOk = true → Eff.cancelHoldInvoice h ∈ (coopCancel env u o).1) := by
  obtain ⟨c, m1, m2, m3, d1, d2, sv⟩ := env
  cases c <;> cases m1 <;> cases m2 <;> cases d1 <;> cases d2 <;>
    simp_all [coopCancel, runCalls, isSaveOrder, hact, hu, hb, hs, hh]

/-- Witness for C10: the escrow cancel succeeds but the first notification
throws, so the order stays `ACTIVE` although the invoice was canceled. -/
theorem C10_coop_cancel_save_skipped_witness :
    (coopCancel { coopAllOk with msg1Ok := false } uBuyer
      { oActive with seller_cooperativecancel := true }).2 =
      { oActive with seller_cooperativecancel := true } ∧
    (coopCancel { coopAllOk with msg1Ok := false } uBuyer
      { oActive with seller_cooperativecancel := true }).1.any isSaveOrder = false ∧
    Eff.cancelHoldInvoice "h1" ∈
      (coopCancel { coopAllOk with msg1Ok := false } uBuyer
        { oActive with seller_cooperativecancel := true }).1 := by
  have h := C10_coop_cancel_save_skipped { coopAllOk with msg1Ok := false }
    { oActive with seller_cooperativecancel := true } uBuyer "h1"
    (by decide) (by decide) (by decide) (by decide) (by decide)
    (Or.inr (Or.inl (by decide)))
  exact ⟨h.1, h.2.1, h.2.2 (by decide)⟩

/-- C7: every escrow-touching transition checks the required field first —
the admin force-cancel, owner cancel and cooperative-cancel paths invoke
escrow cancel exactly when `hash` is present, the admin force-settle path
invokes escrow settle exactly when `secret` is present, and release invokes
no settle when `secret` is absent; with the field absent each transition
still performs its bookkeeping status update (in particular force-settle
still sets `COMPLETED_BY_ADMIN` with no secret). -/
theorem C7_presence_guards (u a : User) (o : Order) :
    ((cancelorderHandler a o).1.any isCancelCall = o.hash.isSome ∧
     (cancelorderHandler a o).1.any isSettleCall = false ∧
     (cancelorderHandler a o).2.status = .CANCELED_BY_ADMIN) ∧
    ((settleorderHandler a o).1.any isSettleCall = o.secret.isSome ∧
     (settleorderHandler a o).1.any isCancelCall = false ∧
     (settleorderHandler a o).2.status = .COMPLETED_BY_ADMIN) ∧
    ((o.status = .PENDING ∨ o.status = .WAITING_PAYMENT) →
      (cancelHandler u o).1.any isCancelCall = o.hash.isSome ∧
      (cancelHandler u o).2.status = .CANCELED) ∧
    ((o.status = .ACTIVE ∧ o.buyer_cooperativecancel = false ∧
        o.seller_cooperativecancel = true ∧ u.id = o.buyer_id) →
      (coopCancel coopAllOk u o).1.any isCancelCall = o.hash.isSome ∧
      (coopCancel coopAllOk u o).2.status = .CANCELED) ∧
    (o.secret = none → (releaseFlow u o).1.any isSettleCall = false) := by
  refine ⟨⟨?_, ?_, ?_⟩, ⟨?_, ?_, ?_⟩, ?_, ?_, ?_⟩
  · cases hh : o.hash <;>
      simp [cancelorderHandler, hh, isCancelCall]
  · cases hh : o.hash <;>
      simp [cancelorderHandler, hh, isSettleCall]
  · cases hh : o.hash <;> simp [cancelorderHandler, hh]
  · cases hsec : o.secret <;>
      simp [settleorderHandler, hsec, isSettleCall]
  · cases hsec : o.secret <;>
      simp [settleorderHandler, hsec, isCancelCall]
  · cases hsec : o.secret <;> simp [settleorderHandler, hsec]
  · intro hst
    have hok : ¬ (o.status ≠ .PENDING ∧ o.status ≠ .WAITING_PAYMENT) := by
      rcases hst with hp | hp <;> simp [hp]
    cases hh : o.hash <;>
      simp [cancelHandler, hok, hh, isCancelCall]
  · rintro ⟨hact, hb, hs, hu⟩
    cases hh : o.hash <;>
      simp [coopCancel, coopAllOk, runCalls, hact, hb, hs, hu, hh, isCancelCall]
  · intro hsec
    simp [releaseFlow, validateReleaseOrder, hsec]

/-- Witness for C7: the force-settle of the pending order (no secret) makes
no escrow call yet still sets `COMPLETED_BY_ADMIN`, the owner cancel of the
same order makes no escrow call, and the cooperative second confirmation on
the active order cancels its hold invoice. -/
theorem C7_presence_guards_witness :
    (settleorderHandler uAdmin oPending).1.any isSettleCall = false ∧
    (settleorderHandler uAdmin oPending).2.status = .COMPLETED_BY_ADMIN ∧
    (cancelHandler uSeller oPending).1.any isCancelCall = false ∧
    (coopCancel coopAllOk uBuyer
      { oActive with seller_cooperativecancel := true }).1.any isCancelCall = true := by
  have h1 := C7_presence_guards uSeller uAdmin oPending
  have h2 := C7_presence_guards uBuyer uAdmin
    { oActive with seller_cooperativecancel := true }
  exact ⟨h1.2.1.1, h1.2.1.2.2, (h1.2.2.1 (by decide)).1, (h2.2.2.2.1 (by decide)).1⟩

/-- C1 counterexample: the owner cancels the waiting order `oWaiting` — the
order enters the terminal state `CANCELED` and escrow cancel is invoked once
for hash `"h1"` — and then the admin force-cancel, run on the
already-terminal order, invokes `cancelHoldInvoice` for the same hash a
second time. -/
theorem C1_counterexample :
    terminalStatus (runOps oWaiting [.userCancel uSeller]).2.status = true ∧
    (runOps oWaiting [.userCancel uSeller]).1.count (.cancelHoldInvoice "h1") = 1 ∧
    (runOps (runOps oWaiting [.userCancel uSeller]).2
      [.adminCancelOrder uAdmin]).1.count (.cancelHoldInvoice "h1") = 1 := by
  decide

/-- C1 amended: the user cancel, cooperative-cancel and release operations
never invoke an escrow call on an order already in a terminal state, but the
admin force-cancel and force-settle commands carry no terminal-state guard:
on a terminal order they still invoke escrow cancel exactly when `hash` is
present and escrow settle exactly when `secret` is present, so the escrow
cancel (or settle) operation can run more than once for the same hash. -/
theorem C1_amended_terminal_guards (o : Order) (u a : User)
    (hterm : terminalStatus o.status = true) :
    (cancelHandler u o).1.any isEscrowCall = false ∧
    (coopCancel coopAllOk u o).1.any isEscrowCall = false ∧
    (releaseFlow u o).1.any isEscrowCall = false ∧
    (cancelorderHandler a o).1.any isCancelCall = o.hash.isSome ∧
    (settleorderHandler a o).1.any isSettleCall = o.secret.isSome := by
  refine ⟨?_, ?_, ?_, ?_, ?_⟩
  · cases hst : o.status <;> simp [hst, terminalStatus] at hterm <;>
      simp [cancelHandler, hst, isEscrowCall, isSettleCall, isCancelCall]
  · cases hst : o.status <;> simp [hst, terminalStatus] at hterm <;>
      simp [coopCancel, hst, isEscrowCall, isSettleCall, isCancelCall]
  · cases hst : o.status <;> simp [hst, terminalStatus] at hterm <;>
      simp [releaseFlow, validateReleaseOrder, hst, isEscrowCall]
  · cases hh : o.hash <;> simp [cancelorderHandler, hh, isCancelCall]
  · cases hsec : o.secret <;> simp [settleorderHandler, hsec, isSettleCall]

/-- Witness for C1's amended statement at a concrete `CANCELED` order. -/
theorem C1_amended_terminal_guards_witness :
    (cancelHandler uSeller { oActive with status := .CANCELED }).1.any isEscrowCall
      = false ∧
    (coopCancel coopAllOk uBuyer { oActive with status := .CANCELED }).1.any
      isEscrowCall = false ∧
    (cancelorderHandler uAdmin { oActive with status := .CANCELED }).1.any
      isCancelCall = true := by
  have h := C1_amended_terminal_guards { oActive with status := .CANCELED }
    uSeller uAdmin (by decide)
  have h2 := C1_amended_terminal_guards { oActive with status := .CANCELED }
    uBuyer uAdmin (by decide)
  exact ⟨h.1, h2.2.1, h.2.2.2.1⟩

end Bot
